import Mathlib

/-!
Verification development for the Commander AI service (src/app.py).

The access-control core and the guarded request handlers are embedded
shallowly: Python dicts become association lists over `String` keys,
`raise HTTPException` becomes an `Except.error` carrying the status code
and detail string, and handlers that mutate the module-level stores become
state-passing functions `St → ... → St × Except HTTPException _`.
Nondeterministic inputs of the handlers (fresh UUIDs, timestamps, the text
produced by the code generator) are taken as explicit parameters.
-/

namespace CommanderAI

/-- Process-wide configuration, seeded from environment variables at startup
(`SECRET_KEY` and `PORT` are irrelevant to the access-control core). -/
structure Config where
  CREATOR_EMAIL : String
  CREATOR_PASSWORD : String
  CREATOR_API_KEY : String
  OVERRIDE_TOKEN : String
deriving DecidableEq, Repr

/-- A registered identity: one value of `users_db`, keyed by email. -/
structure User where
  password : String
  api_key : String
  is_admin : Bool
  created_at : String
deriving DecidableEq, Repr

/-- The per-request auth context returned by `AuthChecker.get_api_key`. -/
structure AuthContext where
  email : String
  is_admin : Bool
  api_key : String
deriving DecidableEq, Repr

/-- The error value carried by a `raise HTTPException(status_code, detail)`. -/
structure HTTPException where
  status_code : Nat
  detail : String
deriving DecidableEq, Repr

/-- A bot record as created by `create_bot`. -/
structure Bot where
  id : String
  name : String
  skills : List String
  description : Option String
  owner : String
  created_at : String
  alive : Bool
  tasks_completed : Nat
deriving DecidableEq, Repr

/-- A generated-code record as created by `generate_code`; the keys
`approved_at` / `approved_by` that `approve_code` adds to the Python dict
are modelled as `Option` fields that start out `none`. -/
structure Code where
  id : String
  name : String
  description : String
  code : String
  owner : String
  created_at : String
  approved : Bool
  openai_used : Bool
  approved_at : Option String
  approved_by : Option String
deriving DecidableEq, Repr

/-- A task record as created by the synchronous part of `assign_task`. -/
structure Task where
  id : String
  bot_id : String
  bot_name : String
  task : String
  assigned_by : String
  assigned_at : String
  status : String
  timeout : Int
deriving DecidableEq, Repr

/-- The module-level in-memory database: `users_db`, `bots_db`, `codes_db`,
`tasks_db`, each a Python dict modelled as an insertion-ordered
association list with unique keys. -/
structure St where
  users_db : List (String × User)
  bots_db : List (String × Bot)
  codes_db : List (String × Code)
  tasks_db : List (String × Task)
deriving DecidableEq, Repr

/-- Dict lookup `d.get(k)` / `d[k]`. -/
def dictFind (db : List (String × α)) (k : String) : Option α :=
  (db.find? (fun p => p.1 == k)).map (·.2)

/-- Dict assignment `d[k] = v`: replaces the value at an existing key in
place, appends a new key at the end (Python dicts keep insertion order). -/
def dictInsert (db : List (String × α)) (k : String) (v : α) : List (String × α) :=
  if (dictFind db k).isSome then
    db.map (fun p => if p.1 == k then (k, v) else p)
  else
    db ++ [(k, v)]

/-- Dict deletion `del d[k]`. -/
def dictErase (db : List (String × α)) (k : String) : List (String × α) :=
  db.filter (fun p => !(p.1 == k))

/-- Python truthiness of an optional string: `None` and `""` are falsy. -/
def pyTruthy : Option String → Bool
  | none => false
  | some s => s != ""

/-- Python f-string rendering of an `Optional[str]`: `None` prints as
the four characters `None`, a string prints verbatim. -/
def pyStr : Option String → String
  | none => "None"
  | some s => s

/-- The seeded identity table: `users_db` at process start holds exactly
the creator record. -/
def seed_users_db (cfg : Config) (now : String) : List (String × User) :=
  [(cfg.CREATOR_EMAIL, ⟨cfg.CREATOR_PASSWORD, cfg.CREATOR_API_KEY, true, now⟩)]

/-- The exception raised when no API key is presented (spec: MissingCredential). -/
def MissingCredential : HTTPException := ⟨401, "Missing X-API-Key header"⟩

/-- The exception raised when the presented API key matches nothing
(spec: InvalidCredential). -/
def InvalidCredential : HTTPException := ⟨401, "Invalid API key"⟩

/-- The exception raised on an ownership failure (spec: Forbidden). -/
def Forbidden : HTTPException := ⟨403, "Not authorized"⟩

/-- The 404 raised for a missing bot. -/
def BotNotFound : HTTPException := ⟨404, "Bot not found"⟩

/-- The 404 raised for a missing code record. -/
def CodeNotFound : HTTPException := ⟨404, "Code not found"⟩

/-- The exception raised by `delete_bot` when a non-admin fails the
override-token check (spec: OverrideRequired). -/
def OverrideRequiredBot : HTTPException :=
  ⟨403, "Override token required for non-admin users"⟩

/-- The exception raised by `approve_code` when a non-admin fails the
override-token check; its detail interpolates the caller-supplied token. -/
def overrideRequiredCode (override_token : Option String) : HTTPException :=
  ⟨403, "Override token required. Your token: " ++ pyStr override_token⟩

/-- `AuthChecker.get_api_key`: resolve the `X-API-Key` header value to an
auth context. An absent or empty header is falsy and raises 401; the
creator key is checked first against the config constant; otherwise the
identity table is scanned in order for a matching stored `api_key`. -/
def get_api_key (cfg : Config) (users_db : List (String × User))
    (x_api_key : Option String) : Except HTTPException AuthContext :=
  match x_api_key with
  | none => .error MissingCredential
  | some t =>
    if t = "" then .error MissingCredential
    else if t = cfg.CREATOR_API_KEY then .ok ⟨cfg.CREATOR_EMAIL, true, t⟩
    else
      match users_db.find? (fun p => p.2.api_key == t) with
      | some p => .ok ⟨p.1, p.2.is_admin, t⟩
      | none => .error InvalidCredential

/-- `AuthChecker.check_override_token`: a falsy (absent) user fails; an
admin user always passes; a non-admin passes only with a truthy token
equal to the process-wide override secret. -/
def check_override_token (cfg : Config) (override_token : Option String)
    (user : Option AuthContext) : Bool :=
  match user with
  | none => false
  | some u =>
    if u.is_admin then true
    else if pyTruthy override_token = false ∨ override_token ≠ some cfg.OVERRIDE_TOKEN then false
    else true

/-- Request body of `POST /api/bots`. -/
structure BotCreate where
  name : String
  skills : List String
  description : Option String
deriving DecidableEq, Repr

/-- Request body of `POST /api/code/generate`. -/
structure CodeGenerate where
  description : String
  bot_name : String
deriving DecidableEq, Repr

/-- Request body of `POST /api/tasks/assign`. -/
structure TaskAssign where
  bot_id : String
  task : String
  timeout : Int
deriving DecidableEq, Repr

/-- `create_bot` handler: builds the bot record with `owner` set to the
authenticated email and stores it under a fresh id (`bot_id`, `now` stand
for `uuid.uuid4()` and `datetime.now()`). Returns the new state and the
bot echoed in the response. -/
def create_bot (st : St) (bot_data : BotCreate) (auth : AuthContext)
    (bot_id now : String) : St × Bot :=
  let bot : Bot :=
    ⟨bot_id, bot_data.name, bot_data.skills, bot_data.description,
      auth.email, now, true, 0⟩
  ({ st with bots_db := dictInsert st.bots_db bot_id bot }, bot)

/-- `delete_bot` handler: 404 if the id is unknown, 403 `Not authorized`
for a caller who neither owns the bot nor is admin, 403 override-required
for a non-admin failing `check_override_token`, else the entry is deleted.
Each `raise` leaves the stores untouched, so error paths return the input
state. -/
def delete_bot (cfg : Config) (st : St) (bot_id : String) (auth : AuthContext)
    (override_token : Option String) : St × Except HTTPException String :=
  match dictFind st.bots_db bot_id with
  | none => (st, .error BotNotFound)
  | some bot =>
    if bot.owner ≠ auth.email ∧ auth.is_admin = false then
      (st, .error Forbidden)
    else if auth.is_admin = false ∧
        check_override_token cfg override_token (some auth) = false then
      (st, .error OverrideRequiredBot)
    else
      ({ st with bots_db := dictErase st.bots_db bot_id },
        .ok ("Bot '" ++ bot.name ++ "' deleted"))

/-- `generate_code` handler: stores a new unapproved code record owned by
the authenticated email (`code_id`, `now`, `generated`, `openai_used`
stand for the fresh uuid, timestamp, generated text and service flag). -/
def generate_code (st : St) (request : CodeGenerate) (auth : AuthContext)
    (code_id now generated : String) (openai_used : Bool) : St × Code :=
  let code : Code :=
    ⟨code_id, request.bot_name, request.description, generated,
      auth.email, now, false, openai_used, none, none⟩
  ({ st with codes_db := dictInsert st.codes_db code_id code }, code)

/-- `get_code` handler: 404 if the id is unknown, 403 for a caller who
neither owns the record nor is admin, else the record is returned.
Read-only, so no state is returned. -/
def get_code (st : St) (code_id : String) (auth : AuthContext) :
    Except HTTPException Code :=
  match dictFind st.codes_db code_id with
  | none => .error CodeNotFound
  | some code =>
    if code.owner ≠ auth.email ∧ auth.is_admin = false then
      .error Forbidden
    else
      .ok code

/-- `approve_code` handler: 404 if the id is unknown, 403 `Not authorized`
for a caller who neither owns the record nor is admin, 403 (echoing the
supplied token) for a non-admin failing `check_override_token`, else the
stored record gets `approved = True`, `approved_at = now`,
`approved_by = auth.email`. -/
def approve_code (cfg : Config) (st : St) (code_id : String)
    (auth : AuthContext) (override_token : Option String) (now : String) :
    St × Except HTTPException String :=
  match dictFind st.codes_db code_id with
  | none => (st, .error CodeNotFound)
  | some code =>
    if code.owner ≠ auth.email ∧ auth.is_admin = false then
      (st, .error Forbidden)
    else if auth.is_admin = false ∧
        check_override_token cfg override_token (some auth) = false then
      (st, .error (overrideRequiredCode override_token))
    else
      let code2 : Code :=
        { code with approved := true, approved_at := some now,
                    approved_by := some auth.email }
      ({ st with codes_db := dictInsert st.codes_db code_id code2 },
        .ok ("Code '" ++ code.name ++ "' approved"))

/-- The synchronous part of the `assign_task` handler: 404 if the bot id is
unknown, 403 for a caller who neither owns the bot nor is admin, else a
`pending` task is stored (`task_id`, `now` stand for the fresh uuid and
timestamp). The fire-and-forget background completion is concurrency
outside this embedding and is not modelled. -/
def assign_task (st : St) (task_data : TaskAssign) (auth : AuthContext)
    (task_id now : String) : St × Except HTTPException String :=
  match dictFind st.bots_db task_data.bot_id with
  | none => (st, .error BotNotFound)
  | some bot =>
    if bot.owner ≠ auth.email ∧ auth.is_admin = false then
      (st, .error Forbidden)
    else
      let task : Task :=
        ⟨task_id, task_data.bot_id, bot.name, task_data.task,
          auth.email, now, "pending", task_data.timeout⟩
      ({ st with tasks_db := dictInsert st.tasks_db task_id task },
        .ok bot.name)

/-- The record update a successful `approve_code` performs on the stored
code record: the three approval fields and nothing else. -/
def approve_update (code : Code) (email now : String) : Code :=
  { code with approved := true, approved_at := some now,
              approved_by := some email }

/-! ### Association-list lemmas -/

theorem dictErase_cons_self (p : String × α) (t : List (String × α))
    (k : String) (h : p.1 = k) : dictErase (p :: t) k = dictErase t k := by
  simp [dictErase, List.filter_cons, h]

theorem dictErase_cons_ne (p : String × α) (t : List (String × α))
    (k : String) (h : p.1 ≠ k) : dictErase (p :: t) k = p :: dictErase t k := by
  simp [dictErase, List.filter_cons, h]

/-- Deleting a key makes it unfindable. -/
theorem dictFind_erase_self (db : List (String × α)) (k : String) :
    dictFind (dictErase db k) k = none := by
  induction db with
  | nil => rfl
  | cons p t ih =>
    by_cases h : p.1 = k
    · rw [dictErase_cons_self p t k h]; exact ih
    · rw [dictErase_cons_ne p t k h]
      simpa [dictFind, List.find?_cons, h] using ih

/-- Deleting a key leaves every other key's binding unchanged. -/
theorem dictFind_erase_ne (db : List (String × α)) (k k' : String)
    (h : k' ≠ k) : dictFind (dictErase db k) k' = dictFind db k' := by
  induction db with
  | nil => rfl
  | cons p t ih =>
    by_cases h1 : p.1 = k
    · rw [dictErase_cons_self p t k h1, ih]
      have h2 : p.1 ≠ k' := by rw [h1]; exact fun hx => h hx.symm
      simp [dictFind, List.find?_cons, h2]
    · rw [dictErase_cons_ne p t k h1]
      by_cases h2 : p.1 = k'
      · simp [dictFind, List.find?_cons, h2]
      · simpa [dictFind, List.find?_cons, h2] using ih

theorem dictFind_replace_self (db : List (String × α)) (k : String) (v : α)
    (h : (dictFind db k).isSome = true) :
    dictFind (db.map (fun p => if p.1 == k then (k, v) else p)) k = some v := by
  induction db with
  | nil => simp [dictFind] at h
  | cons p t ih =>
    by_cases h1 : p.1 = k
    · simp [dictFind, List.find?_cons, h1]
    · have h' : (dictFind t k).isSome = true := by
        simpa [dictFind, List.find?_cons, h1] using h
      simpa [dictFind, List.find?_cons, h1] using ih h'

theorem dictFind_append_self (db : List (String × α)) (k : String) (v : α)
    (h : dictFind db k = none) :
    dictFind (db ++ [(k, v)]) k = some v := by
  induction db with
  | nil => simp [dictFind]
  | cons p t ih =>
    by_cases h1 : p.1 = k
    · simp [dictFind, List.find?_cons, h1] at h
    · have h' : dictFind t k = none := by
        simpa [dictFind, List.find?_cons, h1] using h
      simpa [dictFind, List.find?_cons, h1] using ih h'

/-- After `d[k] = v`, looking up `k` yields `v`. -/
theorem dictFind_insert_self (db : List (String × α)) (k : String) (v : α) :
    dictFind (dictInsert db k v) k = some v := by
  by_cases h : (dictFind db k).isSome = true
  · unfold dictInsert
    rw [if_pos h]
    exact dictFind_replace_self db k v h
  · unfold dictInsert
    rw [if_neg h]
    have h' : dictFind db k = none := by
      cases hx : dictFind db k with
      | none => rfl
      | some w => rw [hx] at h; simp at h
    exact dictFind_append_self db k v h'

/-! ### Claim theorems -/

/-- C1: resolving the distinguished creator API key yields the auth context
with `admin = true`, the creator email, and the presented token as the
bound key. The creator-key branch of `get_api_key` is decided before the
identity-table scan and reads only the configuration, so the result holds
for every state of the identity table — in particular for every state in
which the creator record is unchanged from startup. The key, being
presented as the token, must be nonempty, else the missing-header check
fires first. -/
theorem creator_key_resolves_admin (cfg : Config)
    (users_db : List (String × User)) (h : cfg.CREATOR_API_KEY ≠ "") :
    get_api_key cfg users_db (some cfg.CREATOR_API_KEY) =
      .ok ⟨cfg.CREATOR_EMAIL, true, cfg.CREATOR_API_KEY⟩ := by
  simp [get_api_key, h]

/-- C1 witness: a concrete config and a mutated identity table (the creator
record replaced by an unrelated one). -/
theorem creator_key_resolves_admin_witness :
    get_api_key (Config.mk "ssemujjua3@gmail.com" "pw" "creator-k" "override-t")
      [("other@x", ⟨"p2", "user-key", false, "t0"⟩)] (some "creator-k") =
      .ok ⟨"ssemujjua3@gmail.com", true, "creator-k"⟩ :=
  creator_key_resolves_admin
    (Config.mk "ssemujjua3@gmail.com" "pw" "creator-k" "override-t")
    [("other@x", ⟨"p2", "user-key", false, "t0"⟩)] (by decide)

/-- C2: an absent or empty token fails with `MissingCredential`; a nonempty
token equal to neither the creator key nor any identity's stored API key
fails with `InvalidCredential`; and every failure of `get_api_key` is one
of these two. -/
theorem resolve_failure_modes (cfg : Config)
    (users_db : List (String × User)) (tok : Option String) :
    (tok = none ∨ tok = some "" →
      get_api_key cfg users_db tok = .error MissingCredential) ∧
    (∀ t, tok = some t → t ≠ "" → t ≠ cfg.CREATOR_API_KEY →
      (∀ p ∈ users_db, p.2.api_key ≠ t) →
      get_api_key cfg users_db tok = .error InvalidCredential) ∧
    (∀ e, get_api_key cfg users_db tok = .error e →
      e = MissingCredential ∨ e = InvalidCredential) := by
  refine ⟨?_, ?_, ?_⟩
  · rintro (rfl | rfl) <;> rfl
  · rintro t rfl hne hck hall
    have hfind : users_db.find? (fun p => p.2.api_key == t) = none := by
      rw [List.find?_eq_none]
      intro p hp
      simpa using hall p hp
    simp [get_api_key, hne, hck, hfind]
  · intro e he
    cases tok with
    | none =>
      simp [get_api_key] at he
      exact Or.inl he.symm
    | some t =>
      by_cases h1 : t = ""
      · simp [get_api_key, h1] at he
        exact Or.inl he.symm
      · by_cases h2 : t = cfg.CREATOR_API_KEY
        · rw [h2] at h1
          simp [get_api_key, h1, h2] at he
        · cases hf : users_db.find? (fun p => p.2.api_key == t) with
          | some p => simp [get_api_key, h1, h2, hf] at he
          | none =>
            simp [get_api_key, h1, h2, hf] at he
            exact Or.inr he.symm

/-- C2 witness: concrete failures of both modes. -/
theorem resolve_failure_modes_witness :
    get_api_key (Config.mk "a@b" "pw" "ck" "ot")
      [("x@y", ⟨"p", "k1", false, "t0"⟩)] none = .error MissingCredential ∧
    get_api_key (Config.mk "a@b" "pw" "ck" "ot")
      [("x@y", ⟨"p", "k1", false, "t0"⟩)] (some "zz") =
        .error InvalidCredential :=
  ⟨(resolve_failure_modes (Config.mk "a@b" "pw" "ck" "ot")
      [("x@y", ⟨"p", "k1", false, "t0"⟩)] none).1 (Or.inl rfl),
   (resolve_failure_modes (Config.mk "a@b" "pw" "ck" "ot")
      [("x@y", ⟨"p", "k1", false, "t0"⟩)] (some "zz")).2.1 "zz" rfl
      (by decide) (by decide) (by decide)⟩

/-- C3: for a present auth context, the override check passes exactly when
the context is admin (the supplied token is then ignored) or when a token
is supplied (present and nonempty, as Python truthiness demands) that
equals the process-wide override secret. The function reads only its
arguments — it takes no store and returns a pure `Bool` — so repeated
calls at the same inputs are definitionally equal. -/
theorem override_check_value (cfg : Config) (u : AuthContext)
    (tok : Option String) :
    check_override_token cfg tok (some u) = true ↔
      u.is_admin = true ∨
        (pyTruthy tok = true ∧ tok = some cfg.OVERRIDE_TOKEN) := by
  by_cases ha : u.is_admin = true
  · simp [check_override_token, ha]
  · by_cases h1 : pyTruthy tok = true
    · by_cases h2 : tok = some cfg.OVERRIDE_TOKEN <;>
        simp [check_override_token, ha, h1, h2]
    · simp [check_override_token, ha, h1]

/-- C9: with no auth context supplied, the override check refuses every
token, including one equal to the override secret itself. -/
theorem override_check_missing_user (cfg : Config) (tok : Option String) :
    check_override_token cfg tok none = false := rfl

/-- C4: on an existing bot or code record, a caller who neither owns the
resource nor is admin gets `Forbidden` (403 `Not authorized`) from
`delete_bot` and `approve_code`, for every supplied override token — the
ownership test is decided before the override-token test ever runs. -/
theorem nonowner_nonadmin_forbidden (cfg : Config) (st : St)
    (auth : AuthContext) (tok : Option String) (now : String)
    (hadmin : auth.is_admin = false) :
    (∀ bot_id bot, dictFind st.bots_db bot_id = some bot →
      bot.owner ≠ auth.email →
      delete_bot cfg st bot_id auth tok = (st, .error Forbidden)) ∧
    (∀ code_id code, dictFind st.codes_db code_id = some code →
      code.owner ≠ auth.email →
      approve_code cfg st code_id auth tok now = (st, .error Forbidden)) := by
  constructor
  · intro bot_id bot hfind hown
    simp [delete_bot, hfind, hown, hadmin]
  · intro code_id code hfind hown
    simp [approve_code, hfind, hown, hadmin]

/-- C4 witness: a non-admin non-owner supplying the correct override secret
is still `Forbidden` on both endpoints. -/
theorem nonowner_nonadmin_forbidden_witness :
    delete_bot (Config.mk "a@b" "pw" "ck" "ot")
      (St.mk [] [("b1", ⟨"b1", "Bot", ["general"], none, "a@b", "t0", true, 0⟩)]
        [] [])
      "b1" (AuthContext.mk "u@v" false "k1") (some "ot") =
      (St.mk [] [("b1", ⟨"b1", "Bot", ["general"], none, "a@b", "t0", true, 0⟩)]
        [] [], .error Forbidden) ∧
    approve_code (Config.mk "a@b" "pw" "ck" "ot")
      (St.mk [] []
        [("c1", ⟨"c1", "Bot", "d", "pass", "a@b", "t0", false, false, none, none⟩)]
        [])
      "c1" (AuthContext.mk "u@v" false "k1") (some "ot") "t1" =
      (St.mk [] []
        [("c1", ⟨"c1", "Bot", "d", "pass", "a@b", "t0", false, false, none, none⟩)]
        [], .error Forbidden) :=
  ⟨(nonowner_nonadmin_forbidden (Config.mk "a@b" "pw" "ck" "ot")
      (St.mk [] [("b1", ⟨"b1", "Bot", ["general"], none, "a@b", "t0", true, 0⟩)]
        [] [])
      (AuthContext.mk "u@v" false "k1") (some "ot") "t1" rfl).1 "b1"
      ⟨"b1", "Bot", ["general"], none, "a@b", "t0", true, 0⟩ (by decide)
      (by decide),
   (nonowner_nonadmin_forbidden (Config.mk "a@b" "pw" "ck" "ot")
      (St.mk [] []
        [("c1", ⟨"c1", "Bot", "d", "pass", "a@b", "t0", false, false, none, none⟩)]
        [])
      (AuthContext.mk "u@v" false "k1") (some "ot") "t1" rfl).2 "c1"
      ⟨"c1", "Bot", "d", "pass", "a@b", "t0", false, false, none, none⟩
      (by decide) (by decide)⟩

/-- C5: for a sensitive action on an existing resource by its own
non-admin owner, an absent-or-wrong override token yields the
override-required 403 with the store untouched, while supplying the exact
override secret succeeds; an admin caller succeeds with no token at all.
Stated for both `delete_bot` and `approve_code`. -/
theorem owner_override_gate (cfg : Config) (st : St) (auth adm : AuthContext)
    (tok : Option String) (now : String)
    (hadmin : auth.is_admin = false) (hadm : adm.is_admin = true)
    (hsecret : cfg.OVERRIDE_TOKEN ≠ "") :
    (∀ bot_id bot, dictFind st.bots_db bot_id = some bot →
      bot.owner = auth.email →
      (pyTruthy tok = false ∨ tok ≠ some cfg.OVERRIDE_TOKEN →
        delete_bot cfg st bot_id auth tok = (st, .error OverrideRequiredBot)) ∧
      delete_bot cfg st bot_id auth (some cfg.OVERRIDE_TOKEN) =
        ({ st with bots_db := dictErase st.bots_db bot_id },
          .ok ("Bot '" ++ bot.name ++ "' deleted")) ∧
      delete_bot cfg st bot_id adm none =
        ({ st with bots_db := dictErase st.bots_db bot_id },
          .ok ("Bot '" ++ bot.name ++ "' deleted"))) ∧
    (∀ code_id code, dictFind st.codes_db code_id = some code →
      code.owner = auth.email →
      (pyTruthy tok = false ∨ tok ≠ some cfg.OVERRIDE_TOKEN →
        approve_code cfg st code_id auth tok now =
          (st, .error (overrideRequiredCode tok))) ∧
      (approve_code cfg st code_id auth (some cfg.OVERRIDE_TOKEN) now).2 =
        .ok ("Code '" ++ code.name ++ "' approved") ∧
      (approve_code cfg st code_id adm none now).2 =
        .ok ("Code '" ++ code.name ++ "' approved")) := by
  constructor
  · intro bot_id bot hfind hown
    refine ⟨?_, ?_, ?_⟩
    · intro htok
      have hchk : check_override_token cfg tok (some auth) = false := by
        rcases htok with h | h <;>
          simp [check_override_token, hadmin, h]
      simp [delete_bot, hfind, hown, hadmin, hchk]
    · have hchk : check_override_token cfg (some cfg.OVERRIDE_TOKEN)
          (some auth) = true := by
        simp [check_override_token, hadmin, pyTruthy, hsecret]
      simp [delete_bot, hfind, hown, hadmin, hchk]
    · simp [delete_bot, hfind, hadm]
  · intro code_id code hfind hown
    refine ⟨?_, ?_, ?_⟩
    · intro htok
      have hchk : check_override_token cfg tok (some auth) = false := by
        rcases htok with h | h <;>
          simp [check_override_token, hadmin, h]
      simp [approve_code, hfind, hown, hadmin, hchk]
    · have hchk : check_override_token cfg (some cfg.OVERRIDE_TOKEN)
          (some auth) = true := by
        simp [check_override_token, hadmin, pyTruthy, hsecret]
      simp [approve_code, hfind, hown, hadmin, hchk]
    · simp [approve_code, hfind, hadm]

/-- C5 witness: the owner without a token is refused, the owner with the
secret succeeds, and an admin with no token succeeds, on both endpoints. -/
theorem owner_override_gate_witness :
    delete_bot (Config.mk "a@b" "pw" "ck" "ot")
      (St.mk [] [("b1", ⟨"b1", "Bot", ["general"], none, "u@v", "t0", true, 0⟩)]
        [] [])
      "b1" (AuthContext.mk "u@v" false "k1") none =
      (St.mk [] [("b1", ⟨"b1", "Bot", ["general"], none, "u@v", "t0", true, 0⟩)]
        [] [], .error OverrideRequiredBot) ∧
    delete_bot (Config.mk "a@b" "pw" "ck" "ot")
      (St.mk [] [("b1", ⟨"b1", "Bot", ["general"], none, "u@v", "t0", true, 0⟩)]
        [] [])
      "b1" (AuthContext.mk "u@v" false "k1") (some "ot") =
      (St.mk [] [] [] [], .ok "Bot 'Bot' deleted") ∧
    (approve_code (Config.mk "a@b" "pw" "ck" "ot")
      (St.mk [] []
        [("c1", ⟨"c1", "Gen", "d", "pass", "u@v", "t0", false, false, none, none⟩)]
        [])
      "c1" (AuthContext.mk "a@b" true "ck") none "t1").2 =
      .ok "Code 'Gen' approved" := by
  have h := owner_override_gate (Config.mk "a@b" "pw" "ck" "ot")
    (St.mk [] [("b1", ⟨"b1", "Bot", ["general"], none, "u@v", "t0", true, 0⟩)]
      [] [])
    (AuthContext.mk "u@v" false "k1") (AuthContext.mk "a@b" true "ck")
    none "t1" rfl rfl (by decide)
  have h2 := owner_override_gate (Config.mk "a@b" "pw" "ck" "ot")
    (St.mk [] []
      [("c1", ⟨"c1", "Gen", "d", "pass", "u@v", "t0", false, false, none, none⟩)]
      [])
    (AuthContext.mk "u@v" false "k1") (AuthContext.mk "a@b" true "ck")
    none "t1" rfl rfl (by decide)
  have hb := h.1 "b1" ⟨"b1", "Bot", ["general"], none, "u@v", "t0", true, 0⟩
    (by decide) (by decide)
  have hc := h2.2 "c1"
    ⟨"c1", "Gen", "d", "pass", "u@v", "t0", false, false, none, none⟩
    (by decide) (by decide)
  exact ⟨hb.1 (Or.inl rfl), hb.2.1, hc.2.2⟩

/-- C6: each guarded per-resource operation answers 404 on a missing
resource id, for every caller identity and supplied token: the existence
check is the first test each handler runs. -/
theorem missing_resource_not_found (cfg : Config) (st : St)
    (auth : AuthContext) (tok : Option String) (now task_id rid : String)
    (td : TaskAssign) :
    (dictFind st.bots_db rid = none →
      delete_bot cfg st rid auth tok = (st, .error BotNotFound)) ∧
    (dictFind st.codes_db rid = none →
      get_code st rid auth = .error CodeNotFound) ∧
    (dictFind st.codes_db rid = none →
      approve_code cfg st rid auth tok now = (st, .error CodeNotFound)) ∧
    (dictFind st.bots_db td.bot_id = none →
      assign_task st td auth task_id now = (st, .error BotNotFound)) := by
  refine ⟨?_, ?_, ?_, ?_⟩
  · intro h; simp [delete_bot, h]
  · intro h; simp [get_code, h]
  · intro h; simp [approve_code, h]
  · intro h; simp [assign_task, h]

/-- C6 witness: on the empty stores every operation is 404, even for an
admin caller holding the override secret. -/
theorem missing_resource_not_found_witness :
    delete_bot (Config.mk "a@b" "pw" "ck" "ot") (St.mk [] [] [] [])
      "b1" (AuthContext.mk "a@b" true "ck") (some "ot") =
      (St.mk [] [] [] [], .error BotNotFound) ∧
    get_code (St.mk [] [] [] []) "c1" (AuthContext.mk "a@b" true "ck") =
      .error CodeNotFound ∧
    approve_code (Config.mk "a@b" "pw" "ck" "ot") (St.mk [] [] [] [])
      "c1" (AuthContext.mk "a@b" true "ck") (some "ot") "t1" =
      (St.mk [] [] [] [], .error CodeNotFound) ∧
    assign_task (St.mk [] [] [] []) (TaskAssign.mk "b1" "do" 30)
      (AuthContext.mk "a@b" true "ck") "t1" "t2" =
      (St.mk [] [] [] [], .error BotNotFound) := by
  have h := missing_resource_not_found (Config.mk "a@b" "pw" "ck" "ot")
    (St.mk [] [] [] []) (AuthContext.mk "a@b" true "ck") (some "ot")
    "t1" "t1" "b1" (TaskAssign.mk "b1" "do" 30)
  have h2 := missing_resource_not_found (Config.mk "a@b" "pw" "ck" "ot")
    (St.mk [] [] [] []) (AuthContext.mk "a@b" true "ck") (some "ot")
    "t1" "t1" "c1" (TaskAssign.mk "b1" "do" 30)
  exact ⟨h.1 rfl, h2.2.1 rfl, h2.2.2.1 rfl, h.2.2.2 rfl⟩

/-- C7: `create_bot` and `generate_code` set the new record's `owner` to
the authenticated email and store exactly that record; and whenever
`approve_code` succeeds, the stored record is the old one with only
`approved`, `approved_at`, `approved_by` changed — in particular the
`owner` field is unchanged. No other handler writes to a stored bot or
code record. -/
theorem owner_fixed_at_creation (cfg : Config) (st : St) (bd : BotCreate)
    (cg : CodeGenerate) (auth : AuthContext) (tok : Option String)
    (bot_id code_id now generated : String) (openai_used : Bool) :
    ((create_bot st bd auth bot_id now).2.owner = auth.email ∧
      dictFind (create_bot st bd auth bot_id now).1.bots_db bot_id =
        some (create_bot st bd auth bot_id now).2) ∧
    ((generate_code st cg auth code_id now generated openai_used).2.owner =
        auth.email ∧
      dictFind (generate_code st cg auth code_id now generated
          openai_used).1.codes_db code_id =
        some (generate_code st cg auth code_id now generated openai_used).2) ∧
    (∀ code msg, dictFind st.codes_db code_id = some code →
      (approve_code cfg st code_id auth tok now).2 = .ok msg →
      dictFind (approve_code cfg st code_id auth tok now).1.codes_db code_id =
        some { code with approved := true, approved_at := some now,
                         approved_by := some auth.email }) := by
  refine ⟨⟨rfl, ?_⟩, ⟨rfl, ?_⟩, ?_⟩
  · exact dictFind_insert_self st.bots_db bot_id _
  · exact dictFind_insert_self st.codes_db code_id _
  · intro code msg hfind hok
    by_cases h1 : code.owner ≠ auth.email ∧ auth.is_admin = false
    · simp [approve_code, hfind, h1] at hok
    · by_cases h2 : auth.is_admin = false ∧
          check_override_token cfg tok (some auth) = false
      · obtain ⟨hadm, hchk⟩ := h2
        have howner : code.owner = auth.email := by
          by_contra hx
          exact h1 ⟨hx, hadm⟩
        simp [approve_code, hfind, howner, hadm, hchk] at hok
      · have heq : approve_code cfg st code_id auth tok now =
            ({ st with codes_db := dictInsert st.codes_db code_id (approve_update code auth.email now) },
              .ok ("Code '" ++ code.name ++ "' approved")) := by
          simp [approve_code, hfind, h1, h2, approve_update]
        rw [heq]
        exact dictFind_insert_self st.codes_db code_id _

/-- C7 witness: concrete creation and a concrete successful approval. -/
theorem owner_fixed_at_creation_witness :
    ((create_bot (St.mk [] [] [] []) (BotCreate.mk "Bot" ["general"] none)
        (AuthContext.mk "u@v" false "k1") "b1" "t0").2.owner = "u@v" ∧
      dictFind (create_bot (St.mk [] [] [] [])
          (BotCreate.mk "Bot" ["general"] none)
          (AuthContext.mk "u@v" false "k1") "b1" "t0").1.bots_db "b1" =
        some (create_bot (St.mk [] [] [] [])
          (BotCreate.mk "Bot" ["general"] none)
          (AuthContext.mk "u@v" false "k1") "b1" "t0").2) ∧
    dictFind (approve_code (Config.mk "a@b" "pw" "ck" "ot")
        (St.mk [] []
          [("c1", ⟨"c1", "Gen", "d", "pass", "u@v", "t0", false, false,
            none, none⟩)] [])
        "c1" (AuthContext.mk "u@v" false "k1") (some "ot") "t1").1.codes_db
        "c1" =
      some ⟨"c1", "Gen", "d", "pass", "u@v", "t0", true, false,
        some "t1", some "u@v"⟩ := by
  have h := owner_fixed_at_creation (Config.mk "a@b" "pw" "ck" "ot")
    (St.mk [] []
      [("c1", ⟨"c1", "Gen", "d", "pass", "u@v", "t0", false, false,
        none, none⟩)] [])
    (BotCreate.mk "Bot" ["general"] none) (CodeGenerate.mk "d" "Gen")
    (AuthContext.mk "u@v" false "k1") (some "ot") "b1" "c1" "t1" "pass" false
  have h0 := owner_fixed_at_creation (Config.mk "a@b" "pw" "ck" "ot")
    (St.mk [] [] [] [])
    (BotCreate.mk "Bot" ["general"] none) (CodeGenerate.mk "d" "Gen")
    (AuthContext.mk "u@v" false "k1") (some "ot") "b1" "c1" "t0" "pass" false
  refine ⟨h0.1, ?_⟩
  exact h.2.2 ⟨"c1", "Gen", "d", "pass", "u@v", "t0", false, false, none, none⟩
    "Code 'Gen' approved" (by decide) (by rfl)

/-- C8: when a non-admin owner's approval attempt fails the override-token
check with a token actually supplied, the raised 403's detail echoes the
caller-supplied token verbatim (as a substring of the message). -/
theorem approve_echoes_token (cfg : Config) (st : St) (auth : AuthContext)
    (code_id t now : String) (code : Code)
    (hfind : dictFind st.codes_db code_id = some code)
    (hadmin : auth.is_admin = false) (hown : code.owner = auth.email)
    (hfail : check_override_token cfg (some t) (some auth) = false) :
    ∃ pre post, (approve_code cfg st code_id auth (some t) now).2 =
      .error ⟨403, pre ++ t ++ post⟩ := by
  refine ⟨"Override token required. Your token: ", "", ?_⟩
  simp [approve_code, hfind, hown, hadmin, hfail, overrideRequiredCode, pyStr]

/-- C8 witness: a concrete wrong token appears verbatim in the 403 detail. -/
theorem approve_echoes_token_witness :
    ∃ pre post,
      (approve_code (Config.mk "a@b" "pw" "ck" "ot")
        (St.mk [] []
          [("c1", ⟨"c1", "Gen", "d", "pass", "u@v", "t0", false, false,
            none, none⟩)] [])
        "c1" (AuthContext.mk "u@v" false "k1") (some "wrong-tok") "t1").2 =
      .error ⟨403, pre ++ "wrong-tok" ++ post⟩ :=
  approve_echoes_token (Config.mk "a@b" "pw" "ck" "ot")
    (St.mk [] []
      [("c1", ⟨"c1", "Gen", "d", "pass", "u@v", "t0", false, false,
        none, none⟩)] [])
    (AuthContext.mk "u@v" false "k1") "c1" "wrong-tok" "t1"
    ⟨"c1", "Gen", "d", "pass", "u@v", "t0", false, false, none, none⟩
    (by decide) rfl rfl (by decide)

/-- C10: `delete_bot` is atomic on the stores. Every failing call returns
the state unchanged; every succeeding call removes exactly the named bot
id from the bot store, leaves every other bot binding intact, and leaves
the code, task and identity stores untouched (tasks referencing the
deleted bot included). -/
theorem delete_bot_frame (cfg : Config) (st : St) (bot_id : String)
    (auth : AuthContext) (tok : Option String) :
    (∀ e, (delete_bot cfg st bot_id auth tok).2 = .error e →
      (delete_bot cfg st bot_id auth tok).1 = st) ∧
    (∀ msg, (delete_bot cfg st bot_id auth tok).2 = .ok msg →
      dictFind (delete_bot cfg st bot_id auth tok).1.bots_db bot_id = none ∧
      (∀ k, k ≠ bot_id →
        dictFind (delete_bot cfg st bot_id auth tok).1.bots_db k =
          dictFind st.bots_db k) ∧
      (delete_bot cfg st bot_id auth tok).1.codes_db = st.codes_db ∧
      (delete_bot cfg st bot_id auth tok).1.tasks_db = st.tasks_db ∧
      (delete_bot cfg st bot_id auth tok).1.users_db = st.users_db) := by
  cases hfind : dictFind st.bots_db bot_id with
  | none =>
    have heq : delete_bot cfg st bot_id auth tok = (st, .error BotNotFound) := by
      simp [delete_bot, hfind]
    rw [heq]
    exact ⟨fun e _ => rfl, fun msg h => by simp at h⟩
  | some bot =>
    by_cases h1 : bot.owner ≠ auth.email ∧ auth.is_admin = false
    · have heq : delete_bot cfg st bot_id auth tok = (st, .error Forbidden) := by
        simp [delete_bot, hfind, h1]
      rw [heq]
      exact ⟨fun e _ => rfl, fun msg h => by simp at h⟩
    · by_cases h2 : auth.is_admin = false ∧
          check_override_token cfg tok (some auth) = false
      · obtain ⟨hadm, hchk⟩ := h2
        have howner : bot.owner = auth.email := by
          by_contra hx
          exact h1 ⟨hx, hadm⟩
        have heq : delete_bot cfg st bot_id auth tok =
            (st, .error OverrideRequiredBot) := by
          simp [delete_bot, hfind, howner, hadm, hchk]
        rw [heq]
        exact ⟨fun e _ => rfl, fun msg h => by simp at h⟩
      · have heq : delete_bot cfg st bot_id auth tok =
            ({ st with bots_db := dictErase st.bots_db bot_id },
              .ok ("Bot '" ++ bot.name ++ "' deleted")) := by
          simp [delete_bot, hfind, h1, h2]
        rw [heq]
        refine ⟨fun e h => by simp at h, fun msg _ => ?_⟩
        refine ⟨dictFind_erase_self st.bots_db bot_id, ?_, rfl, rfl, rfl⟩
        intro k hk
        exact dictFind_erase_ne st.bots_db bot_id k hk

/-- C10 witness: a failing call (missing token) leaves the two-bot store
intact; a succeeding admin call removes exactly the named bot and keeps
the other bot and the task store. -/
theorem delete_bot_frame_witness :
    (delete_bot (Config.mk "a@b" "pw" "ck" "ot")
      (St.mk []
        [("b1", ⟨"b1", "Bot", ["general"], none, "u@v", "t0", true, 0⟩),
         ("b2", ⟨"b2", "Bot2", ["general"], none, "u@v", "t0", true, 0⟩)]
        [] [("t1", ⟨"t1", "b1", "Bot", "do", "u@v", "t0", "pending", 30⟩)])
      "b1" (AuthContext.mk "u@v" false "k1") none).1 =
      St.mk []
        [("b1", ⟨"b1", "Bot", ["general"], none, "u@v", "t0", true, 0⟩),
         ("b2", ⟨"b2", "Bot2", ["general"], none, "u@v", "t0", true, 0⟩)]
        [] [("t1", ⟨"t1", "b1", "Bot", "do", "u@v", "t0", "pending", 30⟩)] ∧
    (dictFind (delete_bot (Config.mk "a@b" "pw" "ck" "ot")
      (St.mk []
        [("b1", ⟨"b1", "Bot", ["general"], none, "u@v", "t0", true, 0⟩),
         ("b2", ⟨"b2", "Bot2", ["general"], none, "u@v", "t0", true, 0⟩)]
        [] [("t1", ⟨"t1", "b1", "Bot", "do", "u@v", "t0", "pending", 30⟩)])
      "b1" (AuthContext.mk "a@b" true "ck") none).1.bots_db "b1" = none ∧
     dictFind (delete_bot (Config.mk "a@b" "pw" "ck" "ot")
      (St.mk []
        [("b1", ⟨"b1", "Bot", ["general"], none, "u@v", "t0", true, 0⟩),
         ("b2", ⟨"b2", "Bot2", ["general"], none, "u@v", "t0", true, 0⟩)]
        [] [("t1", ⟨"t1", "b1", "Bot", "do", "u@v", "t0", "pending", 30⟩)])
      "b1" (AuthContext.mk "a@b" true "ck") none).1.bots_db "b2" =
      some ⟨"b2", "Bot2", ["general"], none, "u@v", "t0", true, 0⟩ ∧
     (delete_bot (Config.mk "a@b" "pw" "ck" "ot")
      (St.mk []
        [("b1", ⟨"b1", "Bot", ["general"], none, "u@v", "t0", true, 0⟩),
         ("b2", ⟨"b2", "Bot2", ["general"], none, "u@v", "t0", true, 0⟩)]
        [] [("t1", ⟨"t1", "b1", "Bot", "do", "u@v", "t0", "pending", 30⟩)])
      "b1" (AuthContext.mk "a@b" true "ck") none).1.tasks_db =
      [("t1", ⟨"t1", "b1", "Bot", "do", "u@v", "t0", "pending", 30⟩)]) := by
  have hfail := (delete_bot_frame (Config.mk "a@b" "pw" "ck" "ot")
    (St.mk []
      [("b1", ⟨"b1", "Bot", ["general"], none, "u@v", "t0", true, 0⟩),
       ("b2", ⟨"b2", "Bot2", ["general"], none, "u@v", "t0", true, 0⟩)]
      [] [("t1", ⟨"t1", "b1", "Bot", "do", "u@v", "t0", "pending", 30⟩)])
    "b1" (AuthContext.mk "u@v" false "k1") none).1 OverrideRequiredBot
    (by rfl)
  have hok := (delete_bot_frame (Config.mk "a@b" "pw" "ck" "ot")
    (St.mk []
      [("b1", ⟨"b1", "Bot", ["general"], none, "u@v", "t0", true, 0⟩),
       ("b2", ⟨"b2", "Bot2", ["general"], none, "u@v", "t0", true, 0⟩)]
      [] [("t1", ⟨"t1", "b1", "Bot", "do", "u@v", "t0", "pending", 30⟩)])
    "b1" (AuthContext.mk "a@b" true "ck") none).2 "Bot 'Bot' deleted"
    (by rfl)
  refine ⟨hfail, hok.1, ?_, hok.2.2.2.1⟩
  have hb2 := hok.2.1 "b2" (by decide)
  rw [hb2]
  decide

end CommanderAI
